import Mathlib

set_option autoImplicit false

/-!
Verification development for the `juconf` repository (`src/api/bot.js`).

The source file is a concatenation of two Telegram-bot programs sharing one
Firestore backing store model:

* the *confession bot* (`node-telegram-bot-api`, lines 1–1336): collections
  `system/counters`, `confessions`, `comments`, `user_cooldowns`,
  `user_rate_limits`, `users`; and
* the *ideas bot* (Telegraf, lines 1337–2027): collections `ideas`,
  `comments`, a process-local `ideaCounter`, and a per-user Telegraf session.

The embedding below translates the store-relevant logic of both programs.
Modelling conventions, uniform throughout:

* Firestore documents become association lists keyed by the document id;
  `doc.get` is `storeGet`, `doc.set` is `storeSet` (create or overwrite),
  `doc.update` is `storeUpdate` (`none` models the `update`-on-missing-doc
  throw).  A `db.runTransaction` body is a single Lean function application,
  which is exactly the atomicity the transaction provides.
* JS timestamps (`Date.now()`) are `Nat` milliseconds, passed explicitly as a
  `now` argument.  JS subtraction `now - last` compared with `>`/`<=` is
  modelled with truncated `Nat` subtraction; for `now < last` both the JS
  comparison (negative number) and the `Nat` one (zero) produce the same
  verdict in every guard below.
* JS `string.length` (UTF-16 units) is modelled by `String.length`
  (characters); all concrete inputs used in proofs are ASCII, where the two
  coincide.  `String.prototype.trim` is modelled by `jsTrim` below.
* Message sends to the Telegram transport are side effects outside the store;
  where a claim observes them they are returned as part of the handler's
  result (an outcome value or a list of `(recipient, payload)` sends).  The
  exact display strings are formatting and are abstracted to tagged payloads.
* The regex-based helpers `sanitizeInput` and `extractHashtags` are string
  transformations whose output no claim inspects; handlers that use them take
  them as function parameters.
-/

namespace JuConf

universe u v

variable {α : Type u} {β : Type v}

/-- Firestore `doc(k).get()` over an association-list collection. -/
def storeGet [DecidableEq α] (k : α) : List (α × β) → Option β
  | [] => none
  | (k', v) :: rest => if k' = k then some v else storeGet k rest

/-- Firestore `doc(k).set(v)`: overwrite if present, create otherwise. -/
def storeSet [DecidableEq α] (k : α) (v : β) : List (α × β) → List (α × β)
  | [] => [(k, v)]
  | (k', v') :: rest =>
      if k' = k then (k, v) :: rest else (k', v') :: storeSet k v rest

/-- Firestore `doc(k).update(f)`: modify if present, `none` models the
throw on a missing document. -/
def storeUpdate [DecidableEq α] (k : α) (f : β → β) :
    List (α × β) → Option (List (α × β))
  | [] => none
  | (k', v') :: rest =>
      if k' = k then some ((k, f v') :: rest)
      else (storeUpdate k f rest).map (fun r => (k', v') :: r)

end JuConf

namespace ConfBot

open JuConf

/-- Lifecycle status of a confession/idea (`status` field). -/
inductive CStatus
  | pending
  | approved
  | rejected
deriving DecidableEq, Repr

/-- A document of the `confessions` collection (audit timestamp fields such
as `createdAt`/`approvedAt` carry no claim-relevant information and are
omitted). -/
structure Confession where
  userId : Nat
  text : String
  status : CStatus
  confessionNumber : Option Nat := none
  hashtags : List String := []
  totalComments : Nat := 0
deriving DecidableEq, Repr

/-- A document of the (confession bot's) `comments` collection, created by
`createCommentSection`. -/
structure CommentSection where
  confessionNumber : Nat
  confessionText : String
  totalComments : Nat := 0
deriving DecidableEq, Repr

/-- The fields of a `users` document that the modelled handlers read or
write (`getUserProfile`'s remaining fields — `bio`, `joinDate`,
`notifications`, `tags`, … — are display-only). `followers` is kept as its
length, the only way the code reads it. -/
structure UserRec where
  totalConfessions : Nat := 0
  reputation : Int := 0
  isActive : Bool := true
  isRegistered : Bool := false
  achievements : List String := []
  achievementCount : Nat := 0
  dailyStreak : Nat := 0
  followersCount : Nat := 0
deriving DecidableEq, Repr

/-- The confession bot's Firestore state: `system/counters` (its
`confessionNumber` field; `lastAssigned`/`initialized` are timestamps no code
reads back), `confessions`, `comments`, `user_cooldowns` (the `confession`
action field, the only action the code uses), `user_rate_limits`
(`commentTimestamps`), and `users`. -/
structure ConfState where
  counters : Option Nat := none
  confessions : List (String × Confession) := []
  commentSections : List (String × CommentSection) := []
  cooldowns : List (Nat × Nat) := []
  rateLimits : List (Nat × List Nat) := []
  users : List (Nat × UserRec) := []
deriving DecidableEq, Repr

/-- JS `String.prototype.trim` (drop leading and trailing whitespace). -/
def jsTrim (s : String) : String :=
  String.mk (((s.toList.dropWhile Char.isWhitespace).reverse.dropWhile
    Char.isWhitespace).reverse)

/-- `initializeCounter`'s bootstrap query:
`confessions.where(status == approved).orderBy(confessionNumber desc).limit(1)`
yields the largest `confessionNumber` among approved confessions carrying the
field (Firestore `orderBy` drops documents missing it), `|| 0` defaulting. -/
def maxApprovedNumber (s : ConfState) : Nat :=
  (s.confessions.filterMap
    (fun kc => if kc.2.status = CStatus.approved then kc.2.confessionNumber
               else none)).foldr max 0

/-- `initializeCounter` (bot.js 45–76): if no counter document exists, seed
it with the maximum approved confession number (0 if none); returns the
in-memory `confessionCounter` mirror alongside the new state. -/
def initializeCounter (s : ConfState) : ConfState × Nat :=
  match s.counters with
  | none =>
      let m := maxApprovedNumber s
      ({ s with counters := some m }, m)
  | some c => (s, c)

/-- `getNextConfessionNumber` (bot.js 79–110).  The whole
`db.runTransaction` body is this one function application — the
read-increment-write and the persistence of the new value are a single
atomic step of the model, as they are a single transaction in the code. -/
def getNextConfessionNumber (s : ConfState) : Nat × ConfState :=
  match s.counters with
  | none => (1, { s with counters := some 1 })
  | some c => (c + 1, { s with counters := some (c + 1) })

/-- `checkCooldown` (bot.js 113–125) for the `confession` action:
`true` (allowed) when no cooldown document, no recorded timestamp
(JS falsiness of `0`), or more than `cooldownMs` elapsed. -/
def checkCooldown (s : ConfState) (userId cooldownMs now : Nat) : Bool :=
  match storeGet userId s.cooldowns with
  | none => true
  | some last => if last = 0 then true else decide (cooldownMs < now - last)

/-- `setCooldown` (bot.js 127–133): record `Date.now()` for the
`confession` action (merge-set creates the document if needed). -/
def setCooldown (s : ConfState) (userId now : Nat) : ConfState :=
  { s with cooldowns := storeSet userId now s.cooldowns }

/-- `checkCommentRateLimit` (bot.js 136–149): allowed iff fewer than
`maxComments` recorded timestamps fall within the last `windowMs`
milliseconds (missing document or field means no recorded timestamps). -/
def checkCommentRateLimit (s : ConfState)
    (userId windowMs maxComments now : Nat) : Bool :=
  match storeGet userId s.rateLimits with
  | none => true
  | some ts => decide ((ts.filter (fun t => now - t ≤ windowMs)).length
      < maxComments)

/-- `recordComment` (bot.js 151–170): transactionally append `Date.now()`
to the user's `commentTimestamps` (Firestore `arrayUnion` adds only when the
value is absent). -/
def recordComment (s : ConfState) (userId now : Nat) : ConfState :=
  match storeGet userId s.rateLimits with
  | none => { s with rateLimits := storeSet userId [now] s.rateLimits }
  | some ts =>
      let ts' := if now ∈ ts then ts else ts ++ [now]
      { s with rateLimits := storeSet userId ts' s.rateLimits }

/-- `isAdmin` (bot.js 173–180) with the parsed `ADMIN_IDS` allow-list as a
parameter (the configuration surface). -/
def isAdmin (adminIds : List String) (userId : String) : Bool :=
  adminIds.contains userId

/-- `getUserProfile` (bot.js 254–287): read the user document, lazily
creating the default profile on first interaction. -/
def getUserProfile (s : ConfState) (userId : Nat) : UserRec × ConfState :=
  match storeGet userId s.users with
  | some u => (u, s)
  | none => ({}, { s with users := storeSet userId {} s.users })

/-- `updateReputation` (bot.js 197–205): `update` with an increment; the
throw on a missing user document is caught and logged, hence a no-op. -/
def updateReputation (s : ConfState) (userId : Nat) (points : Int) :
    ConfState :=
  match storeUpdate userId
      (fun u => { u with reputation := u.reputation + points }) s.users with
  | none => s
  | some users' => { s with users := users' }

/-- `awardAchievement` (bot.js 234–245): `arrayUnion` the achievement id,
increment `achievementCount`, send the unlock message (transport side
effect, swallowed on failure). -/
def awardAchievement (s : ConfState) (userId : Nat) (achievementId : String) :
    ConfState :=
  match storeUpdate userId
      (fun u =>
        { u with
          achievements :=
            if achievementId ∈ u.achievements then u.achievements
            else u.achievements ++ [achievementId]
          achievementCount := u.achievementCount + 1 }) s.users with
  | none => s
  | some users' => { s with users := users' }

/-- `checkAchievements` (bot.js 208–232): one profile snapshot, then the
four award conditions evaluated against that snapshot in order. -/
def checkAchievements (s : ConfState) (userId : Nat) : ConfState :=
  let profile := (getUserProfile s userId).1
  let s1 := (getUserProfile s userId).2
  let s2 :=
    if 1 ≤ profile.totalConfessions ∧
        "first_confession" ∉ profile.achievements then
      awardAchievement s1 userId "first_confession"
    else s1
  let s3 :=
    if 10 ≤ profile.totalConfessions ∧
        "ten_confessions" ∉ profile.achievements then
      awardAchievement s2 userId "ten_confessions"
    else s2
  let s4 :=
    if 50 ≤ profile.followersCount ∧
        "fifty_followers" ∉ profile.achievements then
      awardAchievement s3 userId "fifty_followers"
    else s3
  if 7 ≤ profile.dailyStreak ∧ "week_streak" ∉ profile.achievements then
    awardAchievement s4 userId "week_streak"
  else s4

/-- One delivery attempt wrapped in the per-recipient `try/catch`: the
transport's throw is caught and logged, leaving a success flag. -/
def sendAttempt (send : String → Except String Unit) (recipient : String) :
    Bool :=
  match send recipient with
  | Except.ok _ => true
  | Except.error _ => false

/-- `notifyAdmins` (bot.js 1211–1237): loop over the parsed `ADMIN_IDS`
list, each `bot.sendMessage` inside its own `try/catch`.  The function is
total — the aggregate call cannot raise — and returns the per-recipient
outcome for observability. -/
def notifyAdmins (send : String → Except String Unit) :
    List String → List (String × Bool)
  | [] => []
  | adminId :: rest =>
      (adminId, sendAttempt send adminId) :: notifyAdmins send rest

/-- Result of `handleConfession` (the transport replies sent to the
submitting user, tagged by content). -/
inductive SubmitOutcome
  | tooShort
  | tooLong
  | dbError
  | success (confessionId : String)
deriving DecidableEq, Repr

/-- `handleConfession` (bot.js 1146–1208).  `sanitize` and `hashtagsOf`
stand for the regex helpers `sanitizeInput`/`extractHashtags`; no claim
inspects their output.  On the validation failures the handler returns
before any store access.  The `users` doc `update` throw (author profile
missing) propagates to the outer `catch` after the confession document has
already been written, skipping the cooldown write. -/
def handleConfession (sanitize : String → String)
    (hashtagsOf : String → List String) (s : ConfState)
    (userId : Nat) (text : String) (now : Nat) : SubmitOutcome × ConfState :=
  if (jsTrim text).length < 5 then (SubmitOutcome.tooShort, s)
  else if 1000 < text.length then (SubmitOutcome.tooLong, s)
  else
    let sanitized := sanitize text
    let confessionId := s!"confess_{userId}_{now}"
    let tags := hashtagsOf sanitized
    let newConf : Confession :=
      { userId := userId, text := jsTrim sanitized,
        status := CStatus.pending, hashtags := tags }
    let s1 := { s with
      confessions := storeSet confessionId newConf s.confessions }
    match storeUpdate userId
        (fun u => { u with totalConfessions := u.totalConfessions + 1 })
        s1.users with
    | none => (SubmitOutcome.dbError, s1)
    | some users' =>
        let s2 := { s1 with users := users' }
        let s3 := setCooldown s2 userId now
        let s4 := checkAchievements s3 userId
        (SubmitOutcome.success confessionId, s4)

/-- Result of the `📝 Send Confession` keyboard handler. -/
inductive ButtonOutcome
  | blockedUser
  | cooldownWait (seconds : Nat)
  | prompt
deriving DecidableEq, Repr

/-- `keyboardCommandHandlers['📝 Send Confession']` (bot.js 423–449): the
only place the submission cooldown is consulted.  On an active cooldown it
re-reads the cooldown document and reports the remaining wait
`Math.ceil((60000 - (Date.now() - lastSubmit)) / 1000)` in seconds; if that
document is unexpectedly missing, control falls through to the prompt. -/
def sendConfessionButton (s : ConfState) (userId now : Nat) :
    ButtonOutcome × ConfState :=
  let profile := (getUserProfile s userId).1
  let s1 := (getUserProfile s userId).2
  if ¬ profile.isActive then (ButtonOutcome.blockedUser, s1)
  else
    let canSubmit := checkCooldown s1 userId 60000 now
    if ¬ canSubmit then
      match storeGet userId s1.cooldowns with
      | some last =>
          (ButtonOutcome.cooldownWait ((60000 - (now - last) + 999) / 1000),
            s1)
      | none => (ButtonOutcome.prompt, s1)
    else (ButtonOutcome.prompt, s1)

/-- `createCommentSection` (bot.js 1273–1281). -/
def createCommentSection (s : ConfState) (confessionId : String)
    (number : Nat) (confessionText : String) : ConfState :=
  let sec : CommentSection :=
    { confessionNumber := number, confessionText := confessionText }
  { s with commentSections := storeSet confessionId sec s.commentSections }

/-- Result of the `approve_` callback handler (the callback answers shown
to the pressing admin). -/
inductive ApproveOutcome
  | accessDenied
  | notFound
  | approvedOk (number : Nat)
deriving DecidableEq, Repr

/-- `callbackQueryHandlers['approve_']` (bot.js 929–974).  The only guard
before allocation is `doc.exists`; the confession's current `status` is not
consulted.  On the success path: allocate via `getNextConfessionNumber`,
overwrite `status`/`confessionNumber`, post to the channel
(`postToChannel`, whose store effect is `createCommentSection`), award
+10 reputation, notify the author (transport), run `checkAchievements`. -/
def approveConfession (adminIds : List String) (fromUser : String)
    (s : ConfState) (confessionId : String) : ApproveOutcome × ConfState :=
  if ¬ isAdmin adminIds fromUser then (ApproveOutcome.accessDenied, s)
  else
    match storeGet confessionId s.confessions with
    | none => (ApproveOutcome.notFound, s)
    | some confession =>
        let (nextNumber, s1) := getNextConfessionNumber s
        let markApproved : Confession → Confession := fun c =>
          { c with status := CStatus.approved
                   confessionNumber := some nextNumber }
        let s2 :=
          match storeUpdate confessionId markApproved s1.confessions with
          | none => s1
          | some confessions' => { s1 with confessions := confessions' }
        let s3 := createCommentSection s2 confessionId nextNumber
          confession.text
        let s4 := updateReputation s3 confession.userId 10
        let s5 := checkAchievements s4 confession.userId
        (ApproveOutcome.approvedOk nextNumber, s5)

/-- The route chosen by `handleMessage` for an inbound message. -/
inductive MsgRoute
  | command (name : String)
  | keyboard (label : String)
  | confession
  | defaultStart
deriving DecidableEq, Repr

/-- The keys of `commandHandlers` (bot.js 290–419). -/
def commandNames : List String := ["/start", "/checkin", "/admin"]

/-- The keys of `keyboardCommandHandlers` (bot.js 422–775). -/
def keyboardLabels : List String :=
  ["📝 Send Confession", "👤 My Profile", "🔥 Trending", "🎯 Daily Check-in",
   "🏷️ Hashtags", "🏆 Achievements", "⚙️ Settings", "ℹ️ About Us",
   "🔍 Browse Users", "📌 Rules"]

/-- `text.split(' ')[0]`: the characters before the first space. -/
def firstToken (text : String) : String :=
  String.mk (text.toList.takeWhile (fun c => c ≠ ' '))

/-- JS `text.startsWith('/')`: the first character is `/` (the empty string
starts with nothing). -/
def startsWithSlash (text : String) : Bool :=
  match text.toList with
  | [] => false
  | c :: _ => c = '/'

/-- The dispatch decisions of `handleMessage` (bot.js 1111–1143): slash
command with a registered handler; keyboard label; free text of length
strictly between 5 and 1000 treated as a confession; otherwise the default
`/start` response.  A missing/empty `msg.text` is the empty string (JS
falsiness). -/
def routeMessage (text : String) : MsgRoute :=
  if text ≠ "" ∧ startsWithSlash text = true ∧
      commandNames.contains (firstToken text) = true then
    MsgRoute.command (firstToken text)
  else if text ≠ "" ∧ keyboardLabels.contains text = true then
    MsgRoute.keyboard text
  else if text ≠ "" ∧ 5 < text.length ∧ text.length < 1000 ∧
      startsWithSlash text = false then
    MsgRoute.confession
  else MsgRoute.defaultStart

end ConfBot

namespace IdeasBot

open JuConf
open ConfBot (CStatus)

/-- A document of the `ideas` collection (timestamps omitted as in
`ConfBot.Confession`). -/
structure Idea where
  userId : Nat
  username : String
  text : String
  status : CStatus
  commentCount : Nat := 0
  ideaNumber : Option Nat := none
  channelMessageId : Option Nat := none
  rejectionReason : Option String := none
  approvedBy : Option String := none
  rejectedBy : Option String := none
deriving DecidableEq, Repr

/-- A document of the (ideas bot's) `comments` collection. -/
structure CommentRec where
  ideaId : String
  userId : Nat
  username : String
  text : String
deriving DecidableEq, Repr

/-- The ideas bot's Firestore state. -/
structure IdeasState where
  ideas : List (String × Idea) := []
  comments : List (String × CommentRec) := []
deriving DecidableEq, Repr

/-- Process-local memory: the module-level `let ideaCounter = 0`.  A fresh
process (e.g. a serverless webhook invocation, where `initializeIdeaCounter`
is never called — it runs only in development mode) starts at 0 regardless
of the store's contents. -/
structure Proc where
  ideaCounter : Nat := 0
deriving DecidableEq, Repr

/-- `initializeIdeaCounter` (bot.js 1361–1376): seed the in-memory counter
from the largest `ideaNumber` among approved ideas (Firestore `orderBy`
skips documents missing the field); on an empty result the counter keeps
its previous value. -/
def initializeIdeaCounter (p : Proc) (st : IdeasState) : Proc :=
  let approvedNums := st.ideas.filterMap
    (fun ki => if ki.2.status = CStatus.approved then ki.2.ideaNumber
               else none)
  match approvedNums with
  | [] => p
  | _ => { ideaCounter := approvedNums.foldr max 0 }

/-- The Telegraf per-user session object: one independent, never
cross-cleared field per conversational flow.  `rejectingIdea` holds an idea
id, `messagingUser` a user id; JS truthiness of these strings is `isSome`
(generated ids are never empty). -/
structure Session where
  waitingForIdea : Bool := false
  waitingForComment : Bool := false
  commentIdeaId : Option String := none
  rejectingIdea : Option String := none
  messagingUser : Option String := none
deriving DecidableEq, Repr

/-- The handler a free-text message is routed to. -/
inductive TextRoute
  | ideaSubmission
  | commentSubmission
  | ideaRejection
  | adminMessage
  | unrouted
deriving DecidableEq, Repr

/-- `bot.on('text')` (bot.js 1585–1605): the session flags are tested in
fixed order, the first truthy one wins. -/
def dispatchText (sess : Session) : TextRoute :=
  if sess.waitingForIdea then TextRoute.ideaSubmission
  else if sess.waitingForComment then TextRoute.commentSubmission
  else if sess.rejectingIdea.isSome then TextRoute.ideaRejection
  else if sess.messagingUser.isSome then TextRoute.adminMessage
  else TextRoute.unrouted

/-- `startIdeaSubmission` (bot.js 1447–1452), reached from `/submit` and
the `submit_idea` button: prompt, then set `waitingForIdea` — no other
session field is touched. -/
def startIdeaSubmission (sess : Session) : Session :=
  { sess with waitingForIdea := true }

/-- Semantically tagged outbound transport sends `(recipient, payload)`. -/
inductive BMsg
  | adminNewIdea (ideaId : String)
  | ideaApproved (number : Nat) (text : String)
  | ideaRejected (reason : String)
  | newComment (ideaNumber : Option Nat) (comment : String)
  | adminDirect (text : String)
deriving DecidableEq, Repr

/-- Result of `handleIdeaSubmission`. -/
inductive IdeaSubmitOutcome
  | tooShort
  | tooLong
  | success (ideaId : String)
deriving DecidableEq, Repr

/-- `handleIdeaSubmission` (bot.js 1607–1659): length bound [5, 1000] on
the raw text, checked before any store access; on success persist the
pending idea, fan out to the admins (transport), and only then clear
`waitingForIdea`.  On a validation failure the session is left unchanged. -/
def handleIdeaSubmission (st : IdeasState) (sess : Session)
    (userId : Nat) (username : String) (ideaText : String) (now : Nat) :
    IdeaSubmitOutcome × IdeasState × Session :=
  if ideaText.length < 5 then (IdeaSubmitOutcome.tooShort, st, sess)
  else if 1000 < ideaText.length then (IdeaSubmitOutcome.tooLong, st, sess)
  else
    let ideaId := s!"idea_{userId}_{now}"
    let newIdea : Idea :=
      { userId := userId, username := username, text := ideaText,
        status := CStatus.pending }
    let st1 := { st with ideas := storeSet ideaId newIdea st.ideas }
    let sess1 := { sess with waitingForIdea := false }
    (IdeaSubmitOutcome.success ideaId, st1, sess1)

/-- `notifyAdminNewIdea` (bot.js 1662–1691): the same per-recipient
`try/catch` loop as `ConfBot.notifyAdmins`, over the unparsed
`ADMIN_IDS.split(',')` list. -/
def notifyAdminNewIdea (send : String → Except String Unit) :
    List String → List (String × Bool)
  | [] => []
  | adminId :: rest =>
      (adminId, ConfBot.sendAttempt send adminId) ::
        notifyAdminNewIdea send rest

/-- Result of `approveIdea`'s callback answer. -/
inductive IdeaApproveOutcome
  | notFound
  | approvedOk (number : Nat)
deriving DecidableEq, Repr

/-- `approveIdea` (bot.js 1704–1757).  The only guard is `doc.exists`; the
idea's current `status` is not consulted.  The sequence number is the
process-local `ideaCounter += 1` — no store transaction and no persisted
counter record; only the idea document receives the number.  `chanMsgId` is
the message id the transport returns for the channel post. -/
def approveIdea (p : Proc) (st : IdeasState) (ideaId : String)
    (approver : String) (chanMsgId : Nat) :
    IdeaApproveOutcome × Proc × IdeasState × List (Nat × BMsg) :=
  match storeGet ideaId st.ideas with
  | none => (IdeaApproveOutcome.notFound, p, st, [])
  | some idea =>
      let n := p.ideaCounter + 1
      let p1 : Proc := { ideaCounter := n }
      let markApproved : Idea → Idea := fun i =>
        { i with status := CStatus.approved
                 ideaNumber := some n
                 approvedBy := some approver }
      let st1 :=
        match storeUpdate ideaId markApproved st.ideas with
        | none => st
        | some ideas' => { st with ideas := ideas' }
      let setChan : Idea → Idea := fun i =>
        { i with channelMessageId := some chanMsgId }
      let st2 :=
        match storeUpdate ideaId setChan st1.ideas with
        | none => st1
        | some ideas' => { st1 with ideas := ideas' }
      (IdeaApproveOutcome.approvedOk n, p1, st2,
        [(idea.userId, BMsg.ideaApproved n idea.text)])

/-- `rejectIdea` (bot.js 1759–1767): ask for the reason and park the idea
id in the session; no store access, no allocation. -/
def rejectIdea (sess : Session) (ideaId : String) : Session :=
  { sess with rejectingIdea := some ideaId }

/-- `handleIdeaRejection` (bot.js 1769–1796): on a live `rejectingIdea`
session, mark the idea rejected with the reason and notify its author; a
missing document is silently skipped.  `rejectingIdea` is cleared in every
case.  (The dispatcher only calls this with `rejectingIdea` set; the `none`
branch is unreachable and modelled as the same session clear.) -/
def handleIdeaRejection (st : IdeasState) (sess : Session) (reason : String)
    (rejecter : String) : IdeasState × Session × List (Nat × BMsg) :=
  match sess.rejectingIdea with
  | none => (st, { sess with rejectingIdea := none }, [])
  | some ideaId =>
      let sess1 := { sess with rejectingIdea := none }
      match storeGet ideaId st.ideas with
      | none => (st, sess1, [])
      | some idea =>
          let markRejected : Idea → Idea := fun i =>
            { i with status := CStatus.rejected
                     rejectionReason := some reason
                     rejectedBy := some rejecter }
          let st1 :=
            match storeUpdate ideaId markRejected st.ideas with
            | none => st
            | some ideas' => { st with ideas := ideas' }
          (st1, sess1, [(idea.userId, BMsg.ideaRejected reason)])

/-- Result of `handleCommentButtonClick`. -/
inductive CommentClickOutcome
  | notFound
  | prompted
deriving DecidableEq, Repr

/-- `handleCommentButtonClick` (bot.js 1830–1851): if the idea exists, set
`waitingForComment`/`commentIdeaId` — no other session field is touched, in
particular a pending `waitingForIdea` flow is not discarded. -/
def handleCommentButtonClick (st : IdeasState) (sess : Session)
    (ideaId : String) : CommentClickOutcome × Session :=
  match storeGet ideaId st.ideas with
  | none => (CommentClickOutcome.notFound, sess)
  | some _ =>
      (CommentClickOutcome.prompted,
        { sess with waitingForComment := true
                    commentIdeaId := some ideaId })

/-- Result of `handleCommentSubmission`. -/
inductive CommentOutcome
  | noIdeaSelected
  | tooShort
  | tooLong
  | dbError
  | success (newCount : Nat)
deriving DecidableEq, Repr

/-- `handleCommentSubmission` (bot.js 1853–1926).  Note what is *absent*:
neither `checkCommentRateLimit` nor `recordComment` is consulted — the
comment is stored unconditionally once the length bound [2, 500] holds.
The comment document is written before the idea is re-read; if the idea
document is missing, the `idea.commentCount` access throws into the `catch`
with the comment already stored and the session left uncleared.  On success
the counter increment is a plain read-then-write on the idea document, the
author is notified unless commenting on their own idea, and the session is
cleared. -/
def handleCommentSubmission (st : IdeasState) (sess : Session)
    (userId : Nat) (username : String) (commentText : String) (now : Nat) :
    CommentOutcome × IdeasState × Session × List (Nat × BMsg) :=
  match sess.commentIdeaId with
  | none => (CommentOutcome.noIdeaSelected, st, sess, [])
  | some ideaId =>
      if commentText.length < 2 then (CommentOutcome.tooShort, st, sess, [])
      else if 500 < commentText.length then
        (CommentOutcome.tooLong, st, sess, [])
      else
        let commentId := s!"comment_{userId}_{now}"
        let newComment : CommentRec :=
          { ideaId := ideaId, userId := userId, username := username,
            text := commentText }
        let st1 := { st with
          comments := storeSet commentId newComment st.comments }
        match storeGet ideaId st1.ideas with
        | none => (CommentOutcome.dbError, st1, sess, [])
        | some idea =>
            let newCount := idea.commentCount + 1
            let st2 :=
              match storeUpdate ideaId
                  (fun i => { i with commentCount := newCount })
                  st1.ideas with
              | none => st1
              | some ideas' => { st1 with ideas := ideas' }
            let sends :=
              if idea.userId ≠ userId then
                [(idea.userId, BMsg.newComment idea.ideaNumber commentText)]
              else []
            let sess1 := { sess with waitingForComment := false
                                     commentIdeaId := none }
            (CommentOutcome.success newCount, st2, sess1, sends)

/-- `bot.action(/message_user_/)` (bot.js 1975–1982): park the target user
id in the session; no other field is touched. -/
def startAdminMessage (sess : Session) (targetUserId : String) : Session :=
  { sess with messagingUser := some targetUserId }

end IdeasBot

section Samples

open JuConf ConfBot IdeasBot

/-- Concrete one-pending-confession store used to exercise the `approve_`
handler (claim C1). -/
def c1State : ConfState :=
  { counters := some 0,
    confessions := [("c1", { userId := 7, text := "hello",
                             status := CStatus.pending })],
    users := [(7, {})] }

/-- Concrete ideas store with one approved idea (claim C2). -/
def c2Ideas : IdeasState :=
  { ideas := [("idea_1", { userId := 5, username := "u", text := "an idea",
                           status := CStatus.approved,
                           ideaNumber := some 1 })] }

/-- Concrete ideas store holding an already-numbered approved idea and a
pending one (claim C3). -/
def c3Ideas : IdeasState :=
  { ideas := [("idea_a", { userId := 5, username := "a", text := "first",
                           status := CStatus.approved,
                           ideaNumber := some 1 }),
              ("idea_b", { userId := 6, username := "b", text := "second",
                           status := CStatus.pending })] }

/-- Concrete confession store with an approved confession numbered 5 and no
counter record (claim C4). -/
def c4State : ConfState :=
  { counters := none,
    confessions := [("c9", { userId := 3, text := "old",
                             status := CStatus.approved,
                             confessionNumber := some 5 })] }

/-- Rate-limit store: user 7 has three comment timestamps inside the
30000 ms window ending at `now = 1000` (claim C6). -/
def c6Conf : ConfState := { rateLimits := [(7, [970, 980, 990])] }

/-- Ideas store with one approved idea that has already received three
comments (claim C6). -/
def c6Ideas : IdeasState :=
  { ideas := [("idea_1", { userId := 5, username := "u", text := "an idea",
                           status := CStatus.approved, commentCount := 3,
                           ideaNumber := some 1 })] }

/-- Session of user 7 who pressed the comment button on `idea_1`
(claim C6). -/
def c6Sess : Session :=
  { waitingForComment := true, commentIdeaId := some "idea_1" }

/-- Counter record holding 5 (claim C3). -/
def c3Counter : ConfState := { counters := some 5 }

/-- Confession store where user 7 submitted 1000 ms ago (cooldown still
active at `now = 2000`; claim C7). -/
def c7State : ConfState :=
  { cooldowns := [(7, 1000)], users := [(7, {})] }

/-- Ideas store with a single pending idea awaiting rejection
(claim C8). -/
def c8Ideas : IdeasState :=
  { ideas := [("idea_p", { userId := 9, username := "v", text := "raw idea",
                           status := CStatus.pending }),
              ("idea_q", { userId := 4, username := "w", text := "other",
                           status := CStatus.pending })] }

end Samples

section HelperLemmas

open JuConf ConfBot IdeasBot

universe u v

theorem storeGet_storeSet_self {α : Type u} {β : Type v} [DecidableEq α] (k : α) (v : β)
    (l : List (α × β)) : storeGet k (storeSet k v l) = some v := by
  induction l with
  | nil => simp [storeGet, storeSet]
  | cons hd tl ih =>
      obtain ⟨k', v'⟩ := hd
      by_cases h : k' = k <;> simp [storeGet, storeSet, h, ih]

theorem storeGet_storeSet_ne {α : Type u} {β : Type v} [DecidableEq α] (k j : α) (v : β)
    (l : List (α × β)) (h : j ≠ k) :
    storeGet j (storeSet k v l) = storeGet j l := by
  have hkj : k ≠ j := Ne.symm h
  induction l with
  | nil => simp [storeGet, storeSet, hkj]
  | cons hd tl ih =>
      obtain ⟨k', v'⟩ := hd
      by_cases hk : k' = k
      · subst hk
        simp [storeGet, storeSet, hkj]
      · by_cases hj : k' = j <;> simp [storeGet, storeSet, hk, hj, h, ih]

theorem storeUpdate_of_storeGet {α : Type u} {β : Type v} [DecidableEq α] (k : α) (f : β → β)
    (l : List (α × β)) (v : β) (h : storeGet k l = some v) :
    ∃ l', storeUpdate k f l = some l' ∧ storeGet k l' = some (f v) ∧
      ∀ j, j ≠ k → storeGet j l' = storeGet j l := by
  induction l with
  | nil => simp [storeGet] at h
  | cons hd tl ih =>
      obtain ⟨k', v'⟩ := hd
      by_cases hk : k' = k
      · subst hk
        simp [storeGet] at h
        subst h
        refine ⟨(k', f v') :: tl, by simp [storeUpdate], by simp [storeGet], ?_⟩
        intro j hj
        have : k' ≠ j := Ne.symm hj
        simp [storeGet, this]
      · simp only [storeGet, if_neg hk] at h
        obtain ⟨l', hu, hg, hframe⟩ := ih h
        refine ⟨(k', v') :: l', by simp [storeUpdate, hk, hu], ?_, ?_⟩
        · simpa [storeGet, hk] using hg
        · intro j hj
          by_cases hj' : k' = j <;> simp [storeGet, hj', hframe j hj]

theorem jsTrim_length_le (s : String) : (jsTrim s).length ≤ s.length := by
  have h1 : (s.toList.dropWhile Char.isWhitespace).length ≤ s.toList.length :=
    (List.dropWhile_suffix Char.isWhitespace).sublist.length_le
  have h2 : ((s.toList.dropWhile Char.isWhitespace).reverse.dropWhile
      Char.isWhitespace).length ≤
      (s.toList.dropWhile Char.isWhitespace).reverse.length :=
    (List.dropWhile_suffix Char.isWhitespace).sublist.length_le
  have h3 : s.toList.length = s.length := rfl
  calc (jsTrim s).length
      = ((s.toList.dropWhile Char.isWhitespace).reverse.dropWhile
          Char.isWhitespace).reverse.length := rfl
    _ ≤ s.length := by
          simp only [List.length_reverse] at *
          omega

theorem getUserProfile_cooldowns (s : ConfState) (userId : Nat) :
    ((getUserProfile s userId).2).cooldowns = s.cooldowns := by
  unfold getUserProfile
  split <;> rfl

theorem getUserProfile_confessions (s : ConfState) (userId : Nat) :
    ((getUserProfile s userId).2).confessions = s.confessions := by
  unfold getUserProfile
  split <;> rfl

theorem awardAchievement_cooldowns (s : ConfState) (userId : Nat)
    (aid : String) : (awardAchievement s userId aid).cooldowns = s.cooldowns := by
  unfold awardAchievement
  split <;> rfl

theorem awardAchievement_confessions (s : ConfState) (userId : Nat)
    (aid : String) :
    (awardAchievement s userId aid).confessions = s.confessions := by
  unfold awardAchievement
  split <;> rfl

theorem checkAchievements_cooldowns (s : ConfState) (userId : Nat) :
    (checkAchievements s userId).cooldowns = s.cooldowns := by
  simp only [checkAchievements]
  split_ifs <;>
    simp [awardAchievement_cooldowns, getUserProfile_cooldowns]

theorem checkAchievements_confessions (s : ConfState) (userId : Nat) :
    (checkAchievements s userId).confessions = s.confessions := by
  simp only [checkAchievements]
  split_ifs <;>
    simp [awardAchievement_confessions, getUserProfile_confessions]

theorem notifyAdmins_eq_map (send : String → Except String Unit)
    (adminIds : List String) :
    notifyAdmins send adminIds =
      adminIds.map (fun a => (a, sendAttempt send a)) := by
  induction adminIds with
  | nil => rfl
  | cons a rest ih => simp [notifyAdmins, ih]

theorem notifyAdminNewIdea_eq_map (send : String → Except String Unit)
    (adminIds : List String) :
    notifyAdminNewIdea send adminIds =
      adminIds.map (fun a => (a, sendAttempt send a)) := by
  induction adminIds with
  | nil => rfl
  | cons a rest ih => simp [notifyAdminNewIdea, ih]

theorem approveIdea_frame (p : Proc) (st : IdeasState) (ideaId : String)
    (approver : String) (chanMsgId : Nat) (otherId : String)
    (hne : otherId ≠ ideaId) :
    storeGet otherId (approveIdea p st ideaId approver chanMsgId).2.2.1.ideas
      = storeGet otherId st.ideas := by
  unfold approveIdea
  cases hget : storeGet ideaId st.ideas with
  | none => rfl
  | some idea =>
      obtain ⟨l1, hu1, hg1, hf1⟩ := storeUpdate_of_storeGet ideaId
        (fun i => { i with status := CStatus.approved
                           ideaNumber := some (p.ideaCounter + 1)
                           approvedBy := some approver }) st.ideas idea hget
      obtain ⟨l2, hu2, hg2, hf2⟩ := storeUpdate_of_storeGet ideaId
        (fun i => { i with channelMessageId := some chanMsgId }) l1 _ hg1
      simp only [hu1, hu2]
      rw [hf2 otherId hne, hf1 otherId hne]

end HelperLemmas

section ClaimTheorems

open JuConf ConfBot IdeasBot

/-- C1: the claim says a second `approve` on an already-approved confession
fails with NotFound and does not allocate a second sequence number.  Evaluated
on a one-pending-confession store, the code instead approves again: the second
call answers `approvedOk 2`, not `notFound`, allocates a fresh number 2 and
overwrites the stored `confessionNumber` from 1 to 2 — the `approve_` handler
checks only `doc.exists`, never the current status, before allocating. -/
theorem C1_double_approve_reallocates :
    (approveConfession ["9"] "9" c1State "c1").1
        = ApproveOutcome.approvedOk 1 ∧
    (approveConfession ["9"] "9"
        (approveConfession ["9"] "9" c1State "c1").2 "c1").1
        = ApproveOutcome.approvedOk 2 ∧
    (approveConfession ["9"] "9"
        (approveConfession ["9"] "9" c1State "c1").2 "c1").1
        ≠ ApproveOutcome.notFound ∧
    (storeGet "c1" (approveConfession ["9"] "9"
        (approveConfession ["9"] "9" c1State "c1").2 "c1").2.confessions).map
        Confession.confessionNumber = some (some 2) := by decide

/-- C2 counterexample: with an idea-submission flow pending (flow A),
pressing the comment button (starting flow B) leaves BOTH flags set and the
next free-text message is dispatched to the idea-submission handler (A),
not to the comment handler (B) — refuting "the user is left in flow B only
… routed to B's handler, never to A's". -/
theorem C2_comment_start_keeps_idea_flow :
    dispatchText (handleCommentButtonClick c2Ideas
        (startIdeaSubmission {}) "idea_1").2 = TextRoute.ideaSubmission ∧
    TextRoute.ideaSubmission ≠ TextRoute.commentSubmission ∧
    (handleCommentButtonClick c2Ideas (startIdeaSubmission {})
        "idea_1").2.waitingForIdea = true ∧
    (handleCommentButtonClick c2Ideas (startIdeaSubmission {})
        "idea_1").2.waitingForComment = true := by decide

/-- C2 amended: starting the comment flow sets `waitingForComment` and
`commentIdeaId` but does not discard any pending flow: `waitingForIdea` is
left exactly as it was.  The text dispatcher routes by fixed priority, so
whenever an idea-submission flow is pending the next free text goes to the
idea-submission handler regardless of a newly started comment flow. -/
theorem C2_session_flags_amended :
    ∀ (st : IdeasState) (sess : Session) (ideaId : String) (idea : Idea),
      storeGet ideaId st.ideas = some idea →
      ((handleCommentButtonClick st sess ideaId).2.waitingForComment = true ∧
       (handleCommentButtonClick st sess ideaId).2.commentIdeaId
         = some ideaId ∧
       (handleCommentButtonClick st sess ideaId).2.waitingForIdea
         = sess.waitingForIdea) ∧
      (sess.waitingForIdea = true →
        dispatchText (handleCommentButtonClick st sess ideaId).2
          = TextRoute.ideaSubmission) := by
  intro st sess ideaId idea hget
  refine ⟨⟨?_, ?_, ?_⟩, ?_⟩ <;>
    simp [handleCommentButtonClick, hget, dispatchText]

/-- C2 witness: the amended theorem applied at a concrete store, session and
idea. -/
theorem C2_session_flags_amended_witness :
    dispatchText (handleCommentButtonClick c2Ideas
        { waitingForIdea := true } "idea_1").2 = TextRoute.ideaSubmission :=
  (C2_session_flags_amended c2Ideas { waitingForIdea := true } "idea_1"
    { userId := 5, username := "u", text := "an idea",
      status := CStatus.approved, ideaNumber := some 1 } (by decide)).2 rfl

/-- C3 counterexample: on a fresh process (in-memory `ideaCounter` 0, as in
any webhook invocation, where `initializeIdeaCounter` never runs) with an
idea already numbered 1 in the store, approving a pending idea assigns the
number 1 again — two ideas end up holding sequence number 1, refuting
"each value returned to exactly one caller, no value repeated" together
with the claimed transactional persistence of the counter. -/
theorem C3_fresh_process_duplicates_number :
    (approveIdea {} c3Ideas "idea_b" "admin" 99).1
        = IdeaApproveOutcome.approvedOk 1 ∧
    (storeGet "idea_a"
        (approveIdea {} c3Ideas "idea_b" "admin" 99).2.2.1.ideas).map
        Idea.ideaNumber = some (some 1) ∧
    (storeGet "idea_b"
        (approveIdea {} c3Ideas "idea_b" "admin" 99).2.2.1.ideas).map
        Idea.ideaNumber = some (some 1) := by decide

/-- C3 amended: `getNextConfessionNumber` does satisfy the claim — its
whole read-increment-write runs inside one `db.runTransaction`, it returns
the stored counter plus one, persists that value, and successive calls
return strictly increasing values.  The idea-approval path, however,
allocates from the process-local `ideaCounter` (`ideaCounter += 1`): the
number handed out is determined by process memory alone, with no
transactional read or persistence of any counter record in the store. -/
theorem C3_allocator_amended :
    (∀ (s : ConfState) (c : Nat), s.counters = some c →
        getNextConfessionNumber s
          = (c + 1, { s with counters := some (c + 1) })) ∧
    (∀ s : ConfState,
        (getNextConfessionNumber (getNextConfessionNumber s).2).1
          = (getNextConfessionNumber s).1 + 1) ∧
    (∀ (p : Proc) (st : IdeasState) (ideaId approver : String)
        (chanMsgId : Nat) (idea : Idea),
        storeGet ideaId st.ideas = some idea →
        (approveIdea p st ideaId approver chanMsgId).1
            = IdeaApproveOutcome.approvedOk (p.ideaCounter + 1) ∧
        (approveIdea p st ideaId approver chanMsgId).2.1.ideaCounter
            = p.ideaCounter + 1) := by
  refine ⟨?_, ?_, ?_⟩
  · intro s c h
    simp [getNextConfessionNumber, h]
  · intro s
    cases h : s.counters <;> simp [getNextConfessionNumber, h]
  · intro p st ideaId approver cm idea hget
    constructor <;> simp [approveIdea, hget]

/-- C3 witness: the amended theorem applied at a stored counter of 5 and at
a concrete idea approval. -/
theorem C3_allocator_amended_witness :
    getNextConfessionNumber c3Counter
      = (6, { c3Counter with counters := some 6 }) ∧
    (approveIdea {} c3Ideas "idea_b" "adm2" 42).1
        = IdeaApproveOutcome.approvedOk 1 ∧
    (approveIdea {} c3Ideas "idea_b" "adm2" 42).2.1.ideaCounter = 1 :=
  ⟨C3_allocator_amended.1 c3Counter 5 rfl,
   (C3_allocator_amended.2.2 {} c3Ideas "idea_b" "adm2" 42
      { userId := 6, username := "b", text := "second",
        status := CStatus.pending } (by decide)).1,
   (C3_allocator_amended.2.2 {} c3Ideas "idea_b" "adm2" 42
      { userId := 6, username := "b", text := "second",
        status := CStatus.pending } (by decide)).2⟩

/-- C4 counterexample: with no counter record and an approved confession
numbered 5 in the store, the allocator's own missing-record branch returns
1, not the claimed maximum-plus-one (6). -/
theorem C4_missing_counter_allocates_one :
    maxApprovedNumber c4State = 5 ∧
    (getNextConfessionNumber c4State).1 = 1 ∧
    (getNextConfessionNumber c4State).1 ≠ maxApprovedNumber c4State + 1 := by
  decide

/-- C4 amended: the self-healing bootstrap lives in `initializeCounter`
(which no handler invokes): when the counter record is missing it seeds the
counter with the maximum approved sequence number (0 when there are no
confessions), after which the next allocation returns that maximum plus
one.  `getNextConfessionNumber` itself, called with no counter record,
sets the counter to 1 and returns 1 regardless of existing numbers. -/
theorem C4_bootstrap_amended :
    (∀ s : ConfState, s.counters = none →
       ((initializeCounter s).1.counters = some (maxApprovedNumber s) ∧
        (getNextConfessionNumber (initializeCounter s).1).1
          = maxApprovedNumber s + 1 ∧
        (getNextConfessionNumber s).1 = 1)) ∧
    (∀ s : ConfState, s.confessions = [] → maxApprovedNumber s = 0) := by
  constructor
  · intro s h
    refine ⟨?_, ?_, ?_⟩ <;>
      simp [initializeCounter, h, getNextConfessionNumber]
  · intro s h
    simp [maxApprovedNumber, h]

/-- C4 witness: the amended theorem applied at the concrete
counter-less store. -/
theorem C4_bootstrap_amended_witness :
    (initializeCounter c4State).1.counters
        = some (maxApprovedNumber c4State) ∧
    (getNextConfessionNumber (initializeCounter c4State).1).1
        = maxApprovedNumber c4State + 1 ∧
    (getNextConfessionNumber c4State).1 = 1 :=
  C4_bootstrap_amended.1 c4State rfl

/-- C5: a submit whose text length lies outside [5, 1000] fails with the
validation reply (too short / too long) and performs no store write: both
`handleConfession` and `handleIdeaSubmission` return the store — and, for
ideas, the session — exactly unchanged. -/
theorem C5_validation_no_write :
    ∀ (sanitize : String → String) (hashtagsOf : String → List String)
      (s : ConfState) (st : IdeasState) (sess : Session)
      (userId : Nat) (username text : String) (now : Nat),
      text.length < 5 ∨ 1000 < text.length →
      ((handleConfession sanitize hashtagsOf s userId text now).2 = s ∧
       ((handleConfession sanitize hashtagsOf s userId text now).1
           = SubmitOutcome.tooShort ∨
        (handleConfession sanitize hashtagsOf s userId text now).1
           = SubmitOutcome.tooLong)) ∧
      ((handleIdeaSubmission st sess userId username text now).2.1 = st ∧
       (handleIdeaSubmission st sess userId username text now).2.2 = sess ∧
       ((handleIdeaSubmission st sess userId username text now).1
           = IdeaSubmitOutcome.tooShort ∨
        (handleIdeaSubmission st sess userId username text now).1
           = IdeaSubmitOutcome.tooLong)) := by
  intro sanitize tags s st sess uid uname text now h
  rcases h with h | h
  · have ht : (jsTrim text).length < 5 :=
      lt_of_le_of_lt (jsTrim_length_le text) h
    constructor
    · simp [handleConfession, ht]
    · simp [handleIdeaSubmission, h]
  · have hi5 : ¬ (text.length < 5) := by omega
    by_cases h5 : (jsTrim text).length < 5
    · constructor
      · simp [handleConfession, h5]
      · simp [handleIdeaSubmission, hi5, h]
    · constructor
      · simp [handleConfession, h5, h]
      · simp [handleIdeaSubmission, hi5, h]

/-- C5 witness: the theorem applied to the 3-character text "abc" on empty
stores. -/
theorem C5_validation_no_write_witness :
    ((handleConfession id (fun _ => []) {} 7 "abc" 0).2 = ({} : ConfState) ∧
     ((handleConfession id (fun _ => []) {} 7 "abc" 0).1
         = SubmitOutcome.tooShort ∨
      (handleConfession id (fun _ => []) {} 7 "abc" 0).1
         = SubmitOutcome.tooLong)) ∧
    ((handleIdeaSubmission {} {} 7 "u" "abc" 0).2.1 = ({} : IdeasState) ∧
     (handleIdeaSubmission {} {} 7 "u" "abc" 0).2.2 = ({} : Session) ∧
     ((handleIdeaSubmission {} {} 7 "u" "abc" 0).1
         = IdeaSubmitOutcome.tooShort ∨
      (handleIdeaSubmission {} {} 7 "u" "abc" 0).1
         = IdeaSubmitOutcome.tooLong)) :=
  C5_validation_no_write id (fun _ => []) {} {} {} 7 "u" "abc" 0
    (Or.inl (by decide))

end ClaimTheorems

section ClaimTheoremsB

open JuConf ConfBot IdeasBot

/-- C6 counterexample: user 7 has three comment timestamps inside the
30000 ms window (so `checkCommentRateLimit` answers `false`), yet the 4th
comment attempt is NOT rejected: `handleCommentSubmission` stores the
comment and reports success, because no rate-limit check is wired into the
comment path. -/
theorem C6_fourth_comment_stored :
    checkCommentRateLimit c6Conf 7 30000 3 1000 = false ∧
    (handleCommentSubmission c6Ideas c6Sess 7 "u7" "nice!" 1000).1
        = CommentOutcome.success 4 ∧
    storeGet "comment_7_1000"
        (handleCommentSubmission c6Ideas c6Sess 7 "u7" "nice!"
          1000).2.1.comments
        = some { ideaId := "idea_1", userId := 7, username := "u7",
                 text := "nice!" } := by decide

/-- C6 amended: `checkCommentRateLimit` itself behaves as the claim
describes — with window 30000 ms and limit 3 it rejects whenever three
recorded timestamps lie within the window and admits again once the window
has elapsed from the oldest of three recorded timestamps — but the comment
submission handler never consults it (nor records timestamps), so a 4th
comment within the window is stored successfully rather than rejected. -/
theorem C6_rate_limit_amended :
    (∀ (s : ConfState) (uid now : Nat) (ts : List Nat),
        storeGet uid s.rateLimits = some ts →
        3 ≤ (ts.filter (fun t => now - t ≤ 30000)).length →
        checkCommentRateLimit s uid 30000 3 now = false) ∧
    (∀ (s : ConfState) (uid now t1 t2 t3 : Nat),
        storeGet uid s.rateLimits = some [t1, t2, t3] →
        30000 < now - t1 →
        checkCommentRateLimit s uid 30000 3 now = true) ∧
    (∀ (st : IdeasState) (sess : Session) (uid : Nat)
        (uname text ideaId : String) (now : Nat) (idea : Idea),
        sess.commentIdeaId = some ideaId →
        storeGet ideaId st.ideas = some idea →
        2 ≤ text.length → text.length ≤ 500 →
        (handleCommentSubmission st sess uid uname text now).1
            = CommentOutcome.success (idea.commentCount + 1) ∧
        storeGet (s!"comment_{uid}_{now}")
            (handleCommentSubmission st sess uid uname text now).2.1.comments
            = some { ideaId := ideaId, userId := uid, username := uname,
                     text := text }) := by
  refine ⟨?_, ?_, ?_⟩
  · intro s uid now ts hget hlen
    simp only [checkCommentRateLimit, hget, decide_eq_false_iff_not]
    omega
  · intro s uid now t1 t2 t3 hget h1
    have hd1 : (fun t => decide (now - t ≤ 30000)) t1 = false := by
      simp only [decide_eq_false_iff_not]
      omega
    have hfl : (List.filter (fun t => decide (now - t ≤ 30000))
        [t1, t2, t3]).length ≤ 2 := by
      rw [List.filter_cons_of_neg]
      · exact (List.length_filter_le _ _).trans (by simp)
      · simp only [decide_eq_true_eq]
        omega
    simp only [checkCommentRateLimit, hget, decide_eq_true_eq]
    omega
  · intro st sess uid uname text ideaId now idea hsess hget hlen hlen'
    have h2 : ¬ (text.length < 2) := by omega
    have h500 : ¬ (500 < text.length) := by omega
    obtain ⟨l', hupd, hgl, hfr⟩ := storeUpdate_of_storeGet ideaId
      (fun i => { i with commentCount := idea.commentCount + 1 })
      st.ideas idea hget
    constructor
    · simp [handleCommentSubmission, hsess, h2, h500, hget, hupd]
    · simp [handleCommentSubmission, hsess, h2, h500, hget, hupd,
        storeGet_storeSet_self]

/-- C6 witness: the amended theorem applied at concrete rate-limit stores
and a concrete comment submission. -/
theorem C6_rate_limit_amended_witness :
    checkCommentRateLimit c6Conf 7 30000 3 1000 = false ∧
    checkCommentRateLimit { rateLimits := [(7, [100, 15000, 20000])] }
        7 30000 3 40000 = true ∧
    (handleCommentSubmission c6Ideas c6Sess 7 "u7" "good point" 1000).1
        = CommentOutcome.success 4 ∧
    storeGet (s!"comment_{(7 : Nat)}_{(1000 : Nat)}")
        (handleCommentSubmission c6Ideas c6Sess 7 "u7" "good point"
          1000).2.1.comments
        = some { ideaId := "idea_1", userId := 7, username := "u7",
                 text := "good point" } :=
  ⟨C6_rate_limit_amended.1 c6Conf 7 1000 [970, 980, 990] (by decide)
      (by decide),
   C6_rate_limit_amended.2.1 { rateLimits := [(7, [100, 15000, 20000])] }
      7 40000 100 15000 20000 (by decide) (by decide),
   (C6_rate_limit_amended.2.2 c6Ideas c6Sess 7 "u7" "good point" "idea_1"
      1000
      { userId := 5, username := "u", text := "an idea",
        status := CStatus.approved, commentCount := 3, ideaNumber := some 1 }
      (by decide) (by decide) (by decide) (by decide)).1,
   (C6_rate_limit_amended.2.2 c6Ideas c6Sess 7 "u7" "good point" "idea_1"
      1000
      { userId := 5, username := "u", text := "an idea",
        status := CStatus.approved, commentCount := 3, ideaNumber := some 1 }
      (by decide) (by decide) (by decide) (by decide)).2⟩

/-- C7 counterexample: user 7's cooldown is still active
(`checkCooldown` answers `false` 1000 ms after the last submission), yet a
direct free-text submission is accepted and the confession record is
created — `handleConfession` performs no cooldown check. -/
theorem C7_submit_ignores_cooldown :
    checkCooldown c7State 7 60000 2000 = false ∧
    (handleConfession id (fun _ => []) c7State 7 "hello world" 2000).1
        = SubmitOutcome.success "confess_7_2000" ∧
    (storeGet "confess_7_2000"
        (handleConfession id (fun _ => []) c7State 7 "hello world"
          2000).2.confessions).isSome = true := by decide

/-- C7 amended: the cooldown is enforced only by the `📝 Send Confession`
menu handler, which rejects with the remaining wait
(`ceil((60000 − elapsed) / 1000)` seconds) and writes nothing; the actual
free-text submission handler performs no cooldown check — given only a
valid text and an existing author profile it succeeds unconditionally —
and every successful submit records a fresh cooldown timestamp for the
author. -/
theorem C7_cooldown_amended :
    (∀ (s : ConfState) (uid now last : Nat) (u : UserRec),
        storeGet uid s.users = some u → u.isActive = true →
        storeGet uid s.cooldowns = some last → last ≠ 0 →
        now - last ≤ 60000 →
        sendConfessionButton s uid now
          = (ButtonOutcome.cooldownWait
               ((60000 - (now - last) + 999) / 1000), s)) ∧
    (∀ (sanitize : String → String) (hashtagsOf : String → List String)
        (s : ConfState) (uid : Nat) (text : String) (now : Nat)
        (u : UserRec),
        storeGet uid s.users = some u →
        5 ≤ (jsTrim text).length → text.length ≤ 1000 →
        (handleConfession sanitize hashtagsOf s uid text now).1
            = SubmitOutcome.success (s!"confess_{uid}_{now}") ∧
        storeGet uid
            (handleConfession sanitize hashtagsOf s uid text
              now).2.cooldowns = some now ∧
        (storeGet (s!"confess_{uid}_{now}")
            (handleConfession sanitize hashtagsOf s uid text
              now).2.confessions).isSome = true) := by
  constructor
  · intro s uid now last u hu hact hcd hlast hle
    have hc : checkCooldown s uid 60000 now = false := by
      simp only [checkCooldown, hcd]
      simp [hlast]
      omega
    simp [sendConfessionButton, getUserProfile, hu, hact, hc, hcd]
  · intro sanitize tags s uid text now u hu h5 h1000
    have h5' : ¬ ((jsTrim text).length < 5) := by omega
    have h1000' : ¬ (1000 < text.length) := by omega
    obtain ⟨users', hupd, hgu, hfu⟩ := storeUpdate_of_storeGet uid
      (fun w => { w with totalConfessions := w.totalConfessions + 1 })
      s.users u hu
    refine ⟨?_, ?_, ?_⟩ <;>
      simp [handleConfession, h5', h1000', hupd, setCooldown,
        checkAchievements_cooldowns, checkAchievements_confessions,
        storeGet_storeSet_self]

/-- C7 witness: the amended theorem applied at the concrete
cooldown-active store. -/
theorem C7_cooldown_amended_witness :
    sendConfessionButton c7State 7 2000
      = (ButtonOutcome.cooldownWait
           ((60000 - (2000 - 1000) + 999) / 1000), c7State) ∧
    (handleConfession id (fun _ => []) c7State 7 "hello world" 2000).1
        = SubmitOutcome.success (s!"confess_{(7 : Nat)}_{(2000 : Nat)}") ∧
    storeGet 7 (handleConfession id (fun _ => []) c7State 7 "hello world"
        2000).2.cooldowns = some 2000 ∧
    (storeGet (s!"confess_{(7 : Nat)}_{(2000 : Nat)}")
        (handleConfession id (fun _ => []) c7State 7 "hello world"
          2000).2.confessions).isSome = true :=
  ⟨C7_cooldown_amended.1 c7State 7 2000 1000 {} (by decide) rfl (by decide)
      (by decide) (by decide),
   (C7_cooldown_amended.2 id (fun _ => []) c7State 7 "hello world" 2000 {}
      (by decide) (by decide) (by decide)).1,
   (C7_cooldown_amended.2 id (fun _ => []) c7State 7 "hello world" 2000 {}
      (by decide) (by decide) (by decide)).2.1,
   (C7_cooldown_amended.2 id (fun _ => []) c7State 7 "hello world" 2000 {}
      (by decide) (by decide) (by decide)).2.2⟩

/-- C8: a successful reject transitions the idea to `rejected`, stores the
reason, notifies the author, and never assigns a sequence number: the
idea's `ideaNumber` field is preserved exactly (absent stays absent), and
an interleaved approve of any other idea leaves the rejected idea's
document untouched. -/
theorem C8_reject_no_sequence_number :
    ∀ (st : IdeasState) (sess : Session) (reason rejecter ideaId : String)
      (idea : Idea) (p : Proc) (approver otherId : String) (chanMsgId : Nat),
      sess.rejectingIdea = some ideaId →
      storeGet ideaId st.ideas = some idea →
      (storeGet ideaId (handleIdeaRejection st sess reason rejecter).1.ideas
          = some { idea with status := CStatus.rejected
                             rejectionReason := some reason
                             rejectedBy := some rejecter } ∧
       (handleIdeaRejection st sess reason rejecter).2.1.rejectingIdea
          = none ∧
       (handleIdeaRejection st sess reason rejecter).2.2
          = [(idea.userId, BMsg.ideaRejected reason)]) ∧
      (idea.ideaNumber = none →
        (storeGet ideaId
            (handleIdeaRejection st sess reason rejecter).1.ideas).map
            Idea.ideaNumber = some none) ∧
      (otherId ≠ ideaId →
        storeGet ideaId
            (approveIdea p (handleIdeaRejection st sess reason rejecter).1
              otherId approver chanMsgId).2.2.1.ideas
          = storeGet ideaId
              (handleIdeaRejection st sess reason rejecter).1.ideas) := by
  intro st sess reason rejecter ideaId idea p approver otherId cm hsess hget
  obtain ⟨l', hupd, hgl, hfr⟩ := storeUpdate_of_storeGet ideaId
    (fun i => { i with status := CStatus.rejected
                       rejectionReason := some reason
                       rejectedBy := some rejecter }) st.ideas idea hget
  have hmain : storeGet ideaId
      (handleIdeaRejection st sess reason rejecter).1.ideas
      = some { idea with status := CStatus.rejected
                         rejectionReason := some reason
                         rejectedBy := some rejecter } := by
    simp [handleIdeaRejection, hsess, hget, hupd, hgl]
  refine ⟨⟨hmain, ?_, ?_⟩, ?_, ?_⟩
  · simp [handleIdeaRejection, hsess, hget, hupd]
  · simp [handleIdeaRejection, hsess, hget, hupd]
  · intro hnum
    simp [hmain, hnum]
  · intro hne
    exact approveIdea_frame p _ otherId approver cm ideaId (Ne.symm hne)

/-- C8 witness: the theorem applied at a concrete pending idea, rejection
reason and interleaved approval of a different idea. -/
theorem C8_reject_no_sequence_number_witness :
    storeGet "idea_p" (handleIdeaRejection c8Ideas
        { rejectingIdea := some "idea_p" } "too vague" "adm").1.ideas
      = some { userId := 9, username := "v", text := "raw idea",
               status := CStatus.rejected,
               rejectionReason := some "too vague",
               rejectedBy := some "adm" } ∧
    (handleIdeaRejection c8Ideas { rejectingIdea := some "idea_p" }
        "too vague" "adm").2.1.rejectingIdea = none ∧
    (handleIdeaRejection c8Ideas { rejectingIdea := some "idea_p" }
        "too vague" "adm").2.2 = [(9, BMsg.ideaRejected "too vague")] ∧
    (storeGet "idea_p" (handleIdeaRejection c8Ideas
        { rejectingIdea := some "idea_p" } "too vague" "adm").1.ideas).map
        Idea.ideaNumber = some none ∧
    storeGet "idea_p" (approveIdea {} (handleIdeaRejection c8Ideas
        { rejectingIdea := some "idea_p" } "too vague" "adm").1
        "idea_q" "adm" 50).2.2.1.ideas
      = storeGet "idea_p" (handleIdeaRejection c8Ideas
          { rejectingIdea := some "idea_p" } "too vague" "adm").1.ideas :=
  ⟨(C8_reject_no_sequence_number c8Ideas { rejectingIdea := some "idea_p" }
      "too vague" "adm" "idea_p"
      { userId := 9, username := "v", text := "raw idea",
        status := CStatus.pending } {} "adm" "idea_q" 50 rfl
      (by decide)).1.1,
   (C8_reject_no_sequence_number c8Ideas { rejectingIdea := some "idea_p" }
      "too vague" "adm" "idea_p"
      { userId := 9, username := "v", text := "raw idea",
        status := CStatus.pending } {} "adm" "idea_q" 50 rfl
      (by decide)).1.2.1,
   (C8_reject_no_sequence_number c8Ideas { rejectingIdea := some "idea_p" }
      "too vague" "adm" "idea_p"
      { userId := 9, username := "v", text := "raw idea",
        status := CStatus.pending } {} "adm" "idea_q" 50 rfl
      (by decide)).1.2.2,
   (C8_reject_no_sequence_number c8Ideas { rejectingIdea := some "idea_p" }
      "too vague" "adm" "idea_p"
      { userId := 9, username := "v", text := "raw idea",
        status := CStatus.pending } {} "adm" "idea_q" 50 rfl
      (by decide)).2.1 rfl,
   (C8_reject_no_sequence_number c8Ideas { rejectingIdea := some "idea_p" }
      "too vague" "adm" "idea_p"
      { userId := 9, username := "v", text := "raw idea",
        status := CStatus.pending } {} "adm" "idea_q" 50 rfl
      (by decide)).2.2 (by decide)⟩

/-- C9: the admin fan-outs attempt every recipient independently — the
result is pointwise `(recipient, own delivery outcome)` for the whole list,
so one recipient's failure never aborts or skips the others — and the
aggregate call is a total function (each send is wrapped in its own
try/catch), so it never raises regardless of how many deliveries fail. -/
theorem C9_fanout_isolation :
    ∀ (send : String → Except String Unit) (adminIds : List String),
      notifyAdmins send adminIds
        = adminIds.map (fun a => (a, sendAttempt send a)) ∧
      (notifyAdmins send adminIds).map Prod.fst = adminIds ∧
      notifyAdminNewIdea send adminIds
        = adminIds.map (fun a => (a, sendAttempt send a)) ∧
      (notifyAdminNewIdea send adminIds).map Prod.fst = adminIds := by
  intro send ids
  refine ⟨notifyAdmins_eq_map send ids, ?_,
    notifyAdminNewIdea_eq_map send ids, ?_⟩
  · induction ids with
    | nil => rfl
    | cons a l ih => simp [notifyAdmins, ih]
  · induction ids with
    | nil => rfl
    | cons a l ih => simp [notifyAdminNewIdea, ih]

/-- C10: in the message dispatcher, a non-command text that is not a
keyboard label is routed to the confession handler exactly when its length
is strictly between 5 and 1000; at length exactly 5 or 1000 (or outside)
it falls through to the default `/start` response. -/
theorem C10_dispatch_length_bounds :
    ∀ text : String, startsWithSlash text = false →
      keyboardLabels.contains text = false →
      ((routeMessage text = MsgRoute.confession ↔
          5 < text.length ∧ text.length < 1000) ∧
       (¬ (5 < text.length ∧ text.length < 1000) →
          routeMessage text = MsgRoute.defaultStart)) := by
  intro text h1 h2
  have h2' : text ∉ keyboardLabels := by simpa using h2
  have hroute : routeMessage text
      = if text ≠ "" ∧ 5 < text.length ∧ text.length < 1000 then
          MsgRoute.confession
        else MsgRoute.defaultStart := by
    simp [routeMessage, h1, h2']
  constructor
  · rw [hroute]
    split_ifs with hc
    · simp [hc.2.1, hc.2.2]
    · have hlen : ¬ (5 < text.length ∧ text.length < 1000) := by
        by_contra hcl
        apply hc
        refine ⟨?_, hcl.1, hcl.2⟩
        intro he
        rw [he] at hcl
        exact absurd hcl (by decide)
      simp [hlen]
  · intro hn
    rw [hroute]
    split_ifs with hc
    · exact absurd ⟨hc.2.1, hc.2.2⟩ hn
    · rfl

/-- C10 witness: the theorem applied to the 5-character non-command text
"abcde". -/
theorem C10_dispatch_length_bounds_witness :
    (routeMessage "abcde" = MsgRoute.confession ↔
        5 < "abcde".length ∧ "abcde".length < 1000) ∧
    routeMessage "abcde" = MsgRoute.defaultStart :=
  ⟨(C10_dispatch_length_bounds "abcde" (by decide) (by decide)).1,
   (C10_dispatch_length_bounds "abcde" (by decide) (by decide)).2
     (by decide)⟩

end ClaimTheoremsB
